import Mathlib

/-!
Shallow embedding of `src/app/lib/avatar-scene-template.cpp` (the LIT-LAND
avatar scene controller) and proofs about its entry points.

Modelling conventions:
* Each `std::unique_ptr` handle of the global `SceneState` becomes an
  `Option` field; a fresh resource is the handle record with its
  constructor defaults.
* `float` quantities (camera parameters, aspect ratios, playback speeds,
  time steps, frame rate) are modelled as rationals.
* Each FFI entry point becomes a function from the scene state (plus an
  environment describing the outcomes of external-engine calls) to the new
  state together with a trace of host-visible events: console logs and the
  collaborator calls the claims talk about (animator commands, frame
  render cycle, viewport updates, handle releases).
* A C++ exception thrown inside the `try` block of an entry point is
  modelled by taking the logged catch branch; a dereference of an absent
  (null) handle is undefined behaviour that no `catch` sees, modelled by
  the distinguished `Outcome.crash` result.
-/

set_option autoImplicit false

namespace AvatarScene

/-- A 3-component vector (glm::vec3), with rational components. -/
structure Vec3 where
  x : ℚ
  y : ℚ
  z : ℚ
deriving DecidableEq, Repr

def vec3 (x y z : ℚ) : Vec3 := ⟨x, y, z⟩

/-- The camera configuration a `Scene::setCamera` call installs. -/
structure Camera where
  position : Vec3
  target : Vec3
  up : Vec3
  fov : ℚ
  aspect : ℚ
  near : ℚ
  far : ℚ
deriving DecidableEq, Repr

/-- State held by a live `litland::Scene` handle. -/
structure SceneHandle where
  ambientColor : Vec3
  ambientIntensity : ℚ
  camera : Option Camera
  entities : List Nat
deriving DecidableEq, Repr

/-- A freshly constructed `litland::Scene`. -/
def SceneHandle.new : SceneHandle :=
  { ambientColor := vec3 0 0 0, ambientIntensity := 0, camera := none, entities := [] }

/-- State held by a live `litland::Animator` handle. -/
structure AnimatorH where
  speed : ℚ
  playing : Option (String × Bool)
  boundSkeleton : Bool
deriving DecidableEq, Repr

/-- A freshly constructed `litland::Animator`. -/
def AnimatorH.new : AnimatorH :=
  { speed := 1, playing := none, boundSkeleton := false }

/-- A parsed model returned by `GltfLoader::loadFromMemory`. -/
structure Model where
  hasSkeleton : Bool
deriving DecidableEq, Repr

/-- A transform component (translation, rotation, scale). -/
structure Transform where
  translation : Vec3
  rotation : Vec3
  scale : Vec3
deriving DecidableEq, Repr

/-- State held by a live `litland::ECS::Registry` handle. -/
structure RegistryH where
  nextEntity : Nat
  transforms : List (Nat × Transform)
  directionalLights : List (Nat × (Vec3 × ℚ))
  renderMeshes : List (Nat × Model)
deriving DecidableEq, Repr

/-- A freshly constructed `litland::ECS::Registry`. -/
def RegistryH.new : RegistryH :=
  { nextEntity := 0, transforms := [], directionalLights := [], renderMeshes := [] }

/-- State held by a live `litland::GraphicsDevice` handle. -/
structure DeviceH where
  viewport : Option (Int × Int × Int × Int)
deriving DecidableEq, Repr

/-- A freshly created graphics device (no viewport set yet). -/
def DeviceH.new : DeviceH := { viewport := none }

/-- The global `SceneState` struct `g_scene`. -/
structure SceneState where
  graphicsDevice : Option DeviceH
  scene : Option SceneHandle
  modelLoader : Option Unit
  animator : Option AnimatorH
  registry : Option RegistryH
  avatarEntity : Nat
  cameraPosition : Vec3
  cameraTarget : Vec3
  cameraFOV : ℚ
  currentAnimationState : String
  canvasWidth : Int
  canvasHeight : Int
deriving DecidableEq, Repr

/-- `g_scene` as initialised at module load (the member initialisers). -/
def initialState : SceneState where
  graphicsDevice := none
  scene := none
  modelLoader := none
  animator := none
  registry := none
  avatarEntity := 0
  cameraPosition := vec3 0 (17/10) (5/2)
  cameraTarget := vec3 0 (3/2) 0
  cameraFOV := 50
  currentAnimationState := "idle"
  canvasWidth := 1024
  canvasHeight := 768

/-- Host-visible events: console logs and the external-engine calls the
specification's claims are about. -/
inductive Event where
  | logInfo (msg : String)
  | logError (msg : String)
  | animatorSetSpeed (speed : ℚ)
  | animatorPlay (clip : String) (looping : Bool)
  | animatorBindSkeleton
  | animatorUpdate (dt : ℚ)
  | sceneUpdate (dt : ℚ)
  | beginFrame
  | renderScene
  | endFrame
  | present
  | setViewport (x y w h : Int)
  | release (handle : String)
deriving DecidableEq, Repr

/-- Is the event an error-severity console message? -/
def Event.isError : Event → Bool
  | .logError _ => true
  | _ => false

/-- Is the event the destruction of an owned resource (a `reset` of a
non-null handle)? -/
def Event.isRelease : Event → Bool
  | .release _ => true
  | _ => false

/-- Is the event part of a render cycle (begin/render/end/present)? -/
def Event.isRenderCall : Event → Bool
  | .beginFrame => true
  | .renderScene => true
  | .endFrame => true
  | .present => true
  | _ => false

/-- Is the event an `Animator::update` call? -/
def Event.isAnimatorUpdate : Event → Bool
  | .animatorUpdate _ => true
  | _ => false

/-- Is the event a `Scene::update` call? -/
def Event.isSceneUpdate : Event → Bool
  | .sceneUpdate _ => true
  | _ => false

/-- Outcomes of the external-engine calls an entry point makes, fixed by
the host environment rather than by `g_scene`. -/
structure Env where
  deviceAvailable : Bool
  sceneCtorThrows : Bool
  loaderCtorThrows : Bool
  animatorCtorThrows : Bool
  registryCtorThrows : Bool
  parseResult : Option Model
  frameRate : ℚ
deriving DecidableEq, Repr

/-- All five resource-creation steps of `initScene` succeed. -/
def Env.initSucceeds (env : Env) : Bool :=
  env.deviceAvailable && !env.sceneCtorThrows && !env.loaderCtorThrows &&
    !env.animatorCtorThrows && !env.registryCtorThrows

/-- `setupIdleAnimation`: speed 0.3, loop the idle clip; no-op without an
animator. -/
def setupIdleAnimation (s : SceneState) : SceneState × List Event :=
  match s.animator with
  | none => (s, [])
  | some a =>
      ({ s with animator := some { a with
            speed := 3/10, playing := some ("Armature|ArmatureAction", true) } },
       [Event.animatorSetSpeed (3/10), Event.animatorPlay "Armature|ArmatureAction" true])

/-- `setupListeningAnimation`: speed 0.5, play the head-tilt clip once. -/
def setupListeningAnimation (s : SceneState) : SceneState × List Event :=
  match s.animator with
  | none => (s, [])
  | some a =>
      ({ s with animator := some { a with
            speed := 1/2, playing := some ("HeadTilt", false) } },
       [Event.animatorSetSpeed (1/2), Event.animatorPlay "HeadTilt" false])

/-- `setupSpeakingAnimation`: speed 1.0, loop the talking clip. -/
def setupSpeakingAnimation (s : SceneState) : SceneState × List Event :=
  match s.animator with
  | none => (s, [])
  | some a =>
      ({ s with animator := some { a with
            speed := 1, playing := some ("Talking", true) } },
       [Event.animatorSetSpeed 1, Event.animatorPlay "Talking" true])

/-- Entry point `setAnimationState(stateName)`.  Note the source assigns
`g_scene.currentAnimationState = stateName` before dispatching on it. -/
def setAnimationState (s : SceneState) (stateName : String) : SceneState × List Event :=
  let s1 := { s with currentAnimationState := stateName }
  let r :=
    if s1.currentAnimationState = "idle" then setupIdleAnimation s1
    else if s1.currentAnimationState = "listening" then setupListeningAnimation s1
    else if s1.currentAnimationState = "speaking" then setupSpeakingAnimation s1
    else (s1, [Event.logError ("Unknown animation state: " ++ stateName)])
  (r.1, r.2 ++ [Event.logInfo ("Animation state changed to: " ++ stateName)])

/-- Entry point `getAnimationState()`. -/
def getAnimationState (s : SceneState) : String :=
  s.currentAnimationState

/-- Entry point `getFrameRate()`: the device's measured rate, `0.0` when no
device exists. -/
def getFrameRate (s : SceneState) (env : Env) : ℚ :=
  match s.graphicsDevice with
  | some _ => env.frameRate
  | none => 0

/-- Entry point `updateFrame()`: animator update, scene update, and a
render cycle, each guarded by the presence of its handles. -/
def updateFrame (s : SceneState) : SceneState × List Event :=
  let ev1 := match s.animator with
    | some _ => [Event.animatorUpdate (1/60)]
    | none => []
  let ev2 := match s.scene with
    | some _ => [Event.sceneUpdate (1/60)]
    | none => []
  let ev3 := match s.graphicsDevice, s.scene with
    | some _, some _ => [Event.beginFrame, Event.renderScene, Event.endFrame, Event.present]
    | _, _ => []
  (s, ev1 ++ ev2 ++ ev3)

/-- The `if (g_scene.graphicsDevice) setViewport(...)` statement of
`setCanvasSize`. -/
def viewportStep (s : SceneState) (width height : Int) : SceneState × List Event :=
  match s.graphicsDevice with
  | some d =>
      ({ s with graphicsDevice := some { d with viewport := some (0, 0, width, height) } },
       [Event.setViewport 0 0 width height])
  | none => (s, [])

/-- The `if (g_scene.scene) setCamera(...)` statement of `setCanvasSize`:
re-set the camera from the stored camera fields and the new aspect
ratio. -/
def cameraStep (s : SceneState) (width height : Int) : SceneState × List Event :=
  match s.scene with
  | some sc =>
      ({ s with scene := some { sc with camera := some {
            position := s.cameraPosition, target := s.cameraTarget,
            up := vec3 0 1 0, fov := s.cameraFOV,
            aspect := (width : ℚ) / (height : ℚ), near := 1/10, far := 100 } } },
       [])
  | none => (s, [])

/-- Entry point `setCanvasSize(width, height)`. -/
def setCanvasSize (s : SceneState) (width height : Int) : SceneState × List Event :=
  if width ≤ 0 ∨ height ≤ 0 then (s, [])
  else
    let s1 := { s with canvasWidth := width, canvasHeight := height }
    let r2 := viewportStep s1 width height
    let r3 := cameraStep r2.1 width height
    (r3.1, r2.2 ++ r3.2)

/-- The `reset` calls of `cleanup`, in source order (registry, animator,
modelLoader, scene, device); a `reset` of an absent handle releases
nothing. -/
def releaseEvents (s : SceneState) : List Event :=
  (match s.registry with | some _ => [Event.release "registry"] | none => []) ++
  (match s.animator with | some _ => [Event.release "animator"] | none => []) ++
  (match s.modelLoader with | some _ => [Event.release "modelLoader"] | none => []) ++
  (match s.scene with | some _ => [Event.release "scene"] | none => []) ++
  (match s.graphicsDevice with | some _ => [Event.release "graphicsDevice"] | none => [])

/-- Entry point `cleanup()`. -/
def cleanup (s : SceneState) : SceneState × List Event :=
  ({ s with registry := none, animator := none, modelLoader := none,
            scene := none, graphicsDevice := none },
   Event.logInfo "Cleaning up avatar scene..." ::
     (releaseEvents s ++ [Event.logInfo "Cleanup complete"]))

/-- The message logged when a resource-construction step of `initScene`
throws (the `e.what()` of a failed allocation). -/
def initFailMsg : String := "Failed to initialize scene: std::bad_alloc"

/-- Entry point `initScene()`.  The source assigns each handle as soon as
it is created, so a failure partway through leaves the earlier handles in
place (and a null device-creation result overwrites any previous
device). -/
def initScene (s : SceneState) (env : Env) : SceneState × List Event :=
  let log0 := Event.logInfo "Initializing avatar scene..."
  if env.deviceAvailable = false then
    ({ s with graphicsDevice := none },
     [log0, Event.logError "Failed to initialize scene: Failed to create graphics device"])
  else
    let s1 := { s with graphicsDevice := some DeviceH.new }
    if env.sceneCtorThrows then (s1, [log0, Event.logError initFailMsg])
    else
      let s2 := { s1 with scene := some SceneHandle.new }
      if env.loaderCtorThrows then (s2, [log0, Event.logError initFailMsg])
      else
        let s3 := { s2 with modelLoader := some () }
        if env.animatorCtorThrows then (s3, [log0, Event.logError initFailMsg])
        else
          let s4 := { s3 with animator := some AnimatorH.new }
          if env.registryCtorThrows then (s4, [log0, Event.logError initFailMsg])
          else
            let s5 := { s4 with registry := some RegistryH.new }
            let reg := RegistryH.new
            let light := reg.nextEntity
            let reg1 : RegistryH := { reg with
              nextEntity := reg.nextEntity + 1,
              transforms := (light, ⟨vec3 2 3 2, vec3 0 0 0, vec3 1 1 1⟩) :: reg.transforms,
              directionalLights := (light, (vec3 1 1 1, 1)) :: reg.directionalLights }
            let sc1 : SceneHandle := { SceneHandle.new with
              ambientColor := vec3 (1/2) (1/2) (1/2), ambientIntensity := 1/2 }
            let cam : Camera :=
              { position := s5.cameraPosition, target := s5.cameraTarget,
                up := vec3 0 1 0, fov := s5.cameraFOV,
                aspect := (s5.canvasWidth : ℚ) / (s5.canvasHeight : ℚ),
                near := 1/10, far := 100 }
            let sc2 : SceneHandle := { sc1 with camera := some cam }
            let s6 := { s5 with registry := some reg1, scene := some sc2 }
            let r7 := setupIdleAnimation s6
            (r7.1, log0 :: (r7.2 ++ [Event.logInfo "Avatar scene initialized successfully"]))

/-- Result of an entry point whose body may dereference an absent handle:
either a normal return with the new state and trace, or undefined
behaviour (a null-pointer dereference the `catch` block never sees). -/
inductive Outcome where
  | ok (s : SceneState) (trace : List Event)
  | crash (trace : List Event)
deriving DecidableEq, Repr

/-- The `g_scene.scene->addEntity(...)` step of `loadAvatarModel` and the
success log; dereferences the `scene` handle without a check.  `ev2` is
the trace accumulated since the entry log. -/
def addAvatarToScene (s : SceneState) (entity : Nat) (ev2 : List Event) : Outcome :=
  match s.scene with
  | none => Outcome.crash (Event.logInfo "Loading avatar model..." :: ev2)
  | some sc =>
      Outcome.ok { s with scene := some { sc with entities := entity :: sc.entities } }
        (Event.logInfo "Loading avatar model..." ::
          (ev2 ++ [Event.logInfo "Avatar model loaded successfully"]))

/-- The `if (model->hasSkeleton()) animator->bindSkeleton(...)` step of
`loadAvatarModel`; dereferences the `animator` handle without a check. -/
def bindSkeletonStep (s : SceneState) (model : Model) (entity : Nat) : Outcome :=
  if model.hasSkeleton then
    match s.animator with
    | none => Outcome.crash [Event.logInfo "Loading avatar model..."]
    | some a =>
        addAvatarToScene { s with animator := some { a with boundSkeleton := true } }
          entity [Event.animatorBindSkeleton]
  else addAvatarToScene s entity []

/-- Entry point `loadAvatarModel(glbBuffer, bufferSize)`.  Only
`modelLoader` is null-checked; `registry`, `animator` and `scene` are
dereferenced without a check. -/
def loadAvatarModel (s : SceneState) (env : Env) : Outcome :=
  let log0 := Event.logInfo "Loading avatar model..."
  match s.modelLoader with
  | none =>
      Outcome.ok s [log0, Event.logError "Failed to load avatar model: Model loader not initialized"]
  | some _ =>
      match env.parseResult with
      | none =>
          Outcome.ok s [log0, Event.logError "Failed to load avatar model: Failed to parse GLTF model"]
      | some model =>
          match s.registry with
          | none => Outcome.crash [log0]
          | some reg =>
              let entity := reg.nextEntity
              let reg1 : RegistryH := { reg with
                nextEntity := reg.nextEntity + 1,
                transforms := (entity, ⟨vec3 0 0 0, vec3 0 0 0, vec3 1 1 1⟩) :: reg.transforms,
                renderMeshes := (entity, model) :: reg.renderMeshes }
              bindSkeletonStep { s with registry := some reg1, avatarEntity := entity }
                model entity

/-- States of `g_scene` reachable from module load through the mutating
entry points (a crashed call yields no successor state). -/
inductive Reachable : SceneState → Prop where
  | init : Reachable initialState
  | stepInitScene (s : SceneState) (env : Env) :
      Reachable s → Reachable (initScene s env).1
  | stepLoadAvatarModel (s : SceneState) (env : Env) (s' : SceneState) (tr : List Event) :
      Reachable s → loadAvatarModel s env = Outcome.ok s' tr → Reachable s'
  | stepSetAnimationState (s : SceneState) (name : String) :
      Reachable s → Reachable (setAnimationState s name).1
  | stepUpdateFrame (s : SceneState) :
      Reachable s → Reachable (updateFrame s).1
  | stepSetCanvasSize (s : SceneState) (w h : Int) :
      Reachable s → Reachable (setCanvasSize s w h).1
  | stepCleanup (s : SceneState) :
      Reachable s → Reachable (cleanup s).1

/-- An environment in which every external call of `initScene` succeeds
and the model buffer parses to a skeleton-bearing model. -/
def okEnv : Env :=
  { deviceAvailable := true, sceneCtorThrows := false, loaderCtorThrows := false,
    animatorCtorThrows := false, registryCtorThrows := false,
    parseResult := some { hasSkeleton := true }, frameRate := 60 }

/-- An environment in which `initScene` fails at its last creation step:
the registry constructor throws, leaving device, scene, loader and
animator present but `registry` absent. -/
def partialInitEnv : Env :=
  { deviceAvailable := true, sceneCtorThrows := false, loaderCtorThrows := false,
    animatorCtorThrows := false, registryCtorThrows := true,
    parseResult := some { hasSkeleton := true }, frameRate := 60 }

/-- The partial state `initScene` leaves behind when its registry-creation
step throws: device, scene, model loader and animator present, registry
absent. -/
def partialInitState : SceneState :=
  { initialState with
    graphicsDevice := some DeviceH.new
    scene := some SceneHandle.new
    modelLoader := some ()
    animator := some AnimatorH.new }

/-! ### Helper lemmas -/

/-- `setupIdleAnimation` changes at most the animator handle. -/
theorem setupIdleAnimation_shape (s : SceneState) :
    ∃ a, (setupIdleAnimation s).1 = { s with animator := a } := by
  rcases h : s.animator with _ | a
  · refine ⟨none, ?_⟩
    simp only [setupIdleAnimation, h]
    rw [← h]
  · exact ⟨some { a with speed := 3/10, playing := some ("Armature|ArmatureAction", true) },
      by simp [setupIdleAnimation, h]⟩

/-- `setupListeningAnimation` changes at most the animator handle. -/
theorem setupListeningAnimation_shape (s : SceneState) :
    ∃ a, (setupListeningAnimation s).1 = { s with animator := a } := by
  rcases h : s.animator with _ | a
  · refine ⟨none, ?_⟩
    simp only [setupListeningAnimation, h]
    rw [← h]
  · exact ⟨some { a with speed := 1/2, playing := some ("HeadTilt", false) },
      by simp [setupListeningAnimation, h]⟩

/-- `setupSpeakingAnimation` changes at most the animator handle. -/
theorem setupSpeakingAnimation_shape (s : SceneState) :
    ∃ a, (setupSpeakingAnimation s).1 = { s with animator := a } := by
  rcases h : s.animator with _ | a
  · refine ⟨none, ?_⟩
    simp only [setupSpeakingAnimation, h]
    rw [← h]
  · exact ⟨some { a with speed := 1, playing := some ("Talking", true) },
      by simp [setupSpeakingAnimation, h]⟩

/-- `setAnimationState` always stores the requested name. -/
theorem setAnimationState_stores (s : SceneState) (name : String) :
    (setAnimationState s name).1.currentAnimationState = name := by
  unfold setAnimationState
  dsimp only
  split
  · obtain ⟨a, ha⟩ := setupIdleAnimation_shape { s with currentAnimationState := name }
    rw [ha]
  · split
    · obtain ⟨a, ha⟩ := setupListeningAnimation_shape { s with currentAnimationState := name }
      rw [ha]
    · split
      · obtain ⟨a, ha⟩ := setupSpeakingAnimation_shape { s with currentAnimationState := name }
        rw [ha]
      · rfl

/-- `setAnimationState` leaves the canvas dimensions unchanged. -/
theorem setAnimationState_canvas (s : SceneState) (name : String) :
    (setAnimationState s name).1.canvasWidth = s.canvasWidth ∧
      (setAnimationState s name).1.canvasHeight = s.canvasHeight := by
  unfold setAnimationState
  dsimp only
  split
  · obtain ⟨a, ha⟩ := setupIdleAnimation_shape { s with currentAnimationState := name }
    rw [ha]; exact ⟨rfl, rfl⟩
  · split
    · obtain ⟨a, ha⟩ := setupListeningAnimation_shape { s with currentAnimationState := name }
      rw [ha]; exact ⟨rfl, rfl⟩
    · split
      · obtain ⟨a, ha⟩ := setupSpeakingAnimation_shape { s with currentAnimationState := name }
        rw [ha]; exact ⟨rfl, rfl⟩
      · exact ⟨rfl, rfl⟩

/-- `initScene` leaves the canvas dimensions unchanged. -/
theorem initScene_canvas (s : SceneState) (env : Env) :
    (initScene s env).1.canvasWidth = s.canvasWidth ∧
      (initScene s env).1.canvasHeight = s.canvasHeight := by
  rcases env with ⟨d, c1, c2, c3, c4, p, f⟩
  cases d <;> cases c1 <;> cases c2 <;> cases c3 <;> cases c4 <;>
    exact ⟨rfl, rfl⟩

/-- `addAvatarToScene`, when it returns normally, leaves the canvas
dimensions unchanged. -/
theorem addAvatarToScene_ok_canvas (s : SceneState) (entity : Nat) (ev2 : List Event)
    (s' : SceneState) (tr : List Event)
    (h : addAvatarToScene s entity ev2 = Outcome.ok s' tr) :
    s'.canvasWidth = s.canvasWidth ∧ s'.canvasHeight = s.canvasHeight := by
  unfold addAvatarToScene at h
  rcases hs : s.scene with _ | sc <;> rw [hs] at h
  · cases h
  · cases h; exact ⟨rfl, rfl⟩

/-- `bindSkeletonStep`, when it returns normally, leaves the canvas
dimensions unchanged. -/
theorem bindSkeletonStep_ok_canvas (s : SceneState) (model : Model) (entity : Nat)
    (s' : SceneState) (tr : List Event)
    (h : bindSkeletonStep s model entity = Outcome.ok s' tr) :
    s'.canvasWidth = s.canvasWidth ∧ s'.canvasHeight = s.canvasHeight := by
  unfold bindSkeletonStep at h
  split at h
  · split at h
    · cases h
    · have H := addAvatarToScene_ok_canvas _ _ _ _ _ h
      exact ⟨H.1, H.2⟩
  · exact addAvatarToScene_ok_canvas _ _ _ _ _ h

/-- `loadAvatarModel`, when it returns normally, leaves the canvas
dimensions unchanged. -/
theorem loadAvatarModel_ok_canvas (s : SceneState) (env : Env)
    (s' : SceneState) (tr : List Event)
    (h : loadAvatarModel s env = Outcome.ok s' tr) :
    s'.canvasWidth = s.canvasWidth ∧ s'.canvasHeight = s.canvasHeight := by
  simp only [loadAvatarModel] at h
  split at h
  · cases h; exact ⟨rfl, rfl⟩
  · split at h
    · cases h; exact ⟨rfl, rfl⟩
    · split at h
      · cases h
      · have H := bindSkeletonStep_ok_canvas _ _ _ _ _ h
        exact ⟨H.1, H.2⟩

/-- `viewportStep` changes at most the device handle. -/
theorem viewportStep_shape (s : SceneState) (w h : Int) :
    ∃ d, (viewportStep s w h).1 = { s with graphicsDevice := d } := by
  rcases hd : s.graphicsDevice with _ | d
  · refine ⟨none, ?_⟩
    simp only [viewportStep, hd]
    rw [← hd]
  · exact ⟨some { d with viewport := some (0, 0, w, h) }, by simp [viewportStep, hd]⟩

/-- `cameraStep` changes at most the scene handle. -/
theorem cameraStep_shape (s : SceneState) (w h : Int) :
    ∃ sc, (cameraStep s w h).1 = { s with scene := sc } := by
  rcases hs : s.scene with _ | sc
  · refine ⟨none, ?_⟩
    simp only [cameraStep, hs]
    rw [← hs]
  · exact ⟨some { sc with camera := some {
        position := s.cameraPosition, target := s.cameraTarget,
        up := vec3 0 1 0, fov := s.cameraFOV,
        aspect := (w : ℚ) / (h : ℚ), near := 1/10, far := 100 } },
      by simp [cameraStep, hs]⟩

/-- A valid `setCanvasSize` stores exactly the requested dimensions. -/
theorem setCanvasSize_valid_dims (s : SceneState) (w h : Int)
    (hw : 0 < w) (hh : 0 < h) :
    (setCanvasSize s w h).1.canvasWidth = w ∧
      (setCanvasSize s w h).1.canvasHeight = h := by
  unfold setCanvasSize
  rw [if_neg (by omega)]
  obtain ⟨d, hd⟩ := viewportStep_shape { s with canvasWidth := w, canvasHeight := h } w h
  obtain ⟨sc, hsc⟩ := cameraStep_shape (viewportStep { s with canvasWidth := w, canvasHeight := h } w h).1 w h
  dsimp only
  rw [hsc, hd]
  exact ⟨rfl, rfl⟩

/-- `setCanvasSize` preserves positivity of the stored dimensions. -/
theorem setCanvasSize_pos (s : SceneState) (w h : Int)
    (hw : 0 < s.canvasWidth) (hh : 0 < s.canvasHeight) :
    0 < (setCanvasSize s w h).1.canvasWidth ∧
      0 < (setCanvasSize s w h).1.canvasHeight := by
  by_cases hc : w ≤ 0 ∨ h ≤ 0
  · unfold setCanvasSize
    rw [if_pos hc]
    exact ⟨hw, hh⟩
  · push_neg at hc
    have := setCanvasSize_valid_dims s w h (by omega) (by omega)
    omega

/-- With no device and no scene, a valid `setCanvasSize` only stores the
dimensions and makes no external call. -/
theorem setCanvasSize_no_handles (s : SceneState) (w h : Int)
    (hw : 0 < w) (hh : 0 < h)
    (hd : s.graphicsDevice = none) (hs : s.scene = none) :
    setCanvasSize s w h = ({ s with canvasWidth := w, canvasHeight := h }, []) := by
  unfold setCanvasSize
  rw [if_neg (by omega)]
  simp [viewportStep, cameraStep, hd, hs]

/-- A fully successful `initScene` installs a camera computed from the
stored camera fields and the stored canvas aspect ratio. -/
theorem initScene_success_scene (s : SceneState) (env : Env)
    (henv : env.initSucceeds = true) :
    (initScene s env).1.scene = some
      { ambientColor := vec3 (1/2) (1/2) (1/2), ambientIntensity := 1/2,
        camera := some
          { position := s.cameraPosition, target := s.cameraTarget,
            up := vec3 0 1 0, fov := s.cameraFOV,
            aspect := (s.canvasWidth : ℚ) / (s.canvasHeight : ℚ),
            near := 1/10, far := 100 },
        entities := [] } := by
  rcases env with ⟨d, c1, c2, c3, c4, p, f⟩
  simp only [Env.initSucceeds, Bool.and_eq_true, Bool.not_eq_true'] at henv
  obtain ⟨⟨⟨⟨hd, h1⟩, h2⟩, h3⟩, h4⟩ := henv
  subst hd; subst h1; subst h2; subst h3; subst h4
  rfl

/-- A valid `setCanvasSize` leaves the stored camera fields unchanged. -/
theorem setCanvasSize_camera_fields (s : SceneState) (w h : Int)
    (hw : 0 < w) (hh : 0 < h) :
    (setCanvasSize s w h).1.cameraPosition = s.cameraPosition ∧
      (setCanvasSize s w h).1.cameraTarget = s.cameraTarget ∧
      (setCanvasSize s w h).1.cameraFOV = s.cameraFOV := by
  unfold setCanvasSize
  rw [if_neg (by omega)]
  obtain ⟨d, hd⟩ := viewportStep_shape { s with canvasWidth := w, canvasHeight := h } w h
  obtain ⟨sc2, hsc2⟩ :=
    cameraStep_shape (viewportStep { s with canvasWidth := w, canvasHeight := h } w h).1 w h
  dsimp only
  rw [hsc2, hd]
  exact ⟨rfl, rfl, rfl⟩

/-- When the scene handle is present, a valid `setCanvasSize` re-installs
the camera from the unchanged camera fields with the new aspect ratio and
the constant near/far planes. -/
theorem setCanvasSize_scene_some (s : SceneState) (w h : Int)
    (hw : 0 < w) (hh : 0 < h) (sc : SceneHandle) (hsc : s.scene = some sc) :
    (setCanvasSize s w h).1.scene = some { sc with camera := some {
        position := s.cameraPosition, target := s.cameraTarget,
        up := vec3 0 1 0, fov := s.cameraFOV,
        aspect := (w : ℚ) / (h : ℚ), near := 1/10, far := 100 } } := by
  unfold setCanvasSize
  rw [if_neg (by omega)]
  dsimp only
  rcases hd : s.graphicsDevice with _ | d <;>
    simp [viewportStep, cameraStep, hd, hsc]

/-! ### The claims -/

/-- Claim C1 (counterexample): `setAnimationState("bogus")` does NOT leave
`getAnimationState()` unchanged — the prior value is `"idle"`, the value
after the call is `"bogus"`: the unknown name is stored. -/
theorem C1_counterexample :
    getAnimationState initialState = "idle" ∧
    getAnimationState (setAnimationState initialState "bogus").1 = "bogus" ∧
    getAnimationState (setAnimationState initialState "bogus").1 ≠
      getAnimationState initialState := by
  refine ⟨rfl, rfl, ?_⟩
  decide

/-- Claim C1 (amended): for every state name outside {idle, listening,
speaking}, `setAnimationState` logs exactly one error, but it DOES store
the requested name: `currentAnimationState` becomes the requested name
(and nothing else changes), so a subsequent `getAnimationState` returns
the requested name. -/
theorem C1_unknown_state_stored (s : SceneState) (name : String)
    (h1 : name ≠ "idle") (h2 : name ≠ "listening") (h3 : name ≠ "speaking") :
    (setAnimationState s name).1 = { s with currentAnimationState := name } ∧
    getAnimationState (setAnimationState s name).1 = name ∧
    (setAnimationState s name).2 =
      [Event.logError ("Unknown animation state: " ++ name),
       Event.logInfo ("Animation state changed to: " ++ name)] := by
  unfold setAnimationState getAnimationState
  dsimp only
  rw [if_neg h1, if_neg h2, if_neg h3]
  exact ⟨rfl, rfl, rfl⟩

/-- Witness for C1's amended theorem at the concrete name `"bogus"`. -/
theorem C1_witness :
    (setAnimationState initialState "bogus").1 =
      { initialState with currentAnimationState := "bogus" } ∧
    getAnimationState (setAnimationState initialState "bogus").1 = "bogus" ∧
    (setAnimationState initialState "bogus").2 =
      [Event.logError "Unknown animation state: bogus",
       Event.logInfo "Animation state changed to: bogus"] :=
  C1_unknown_state_stored initialState "bogus" (by decide) (by decide) (by decide)

/-- Claim C2: for every state name in {idle, listening, speaking}, calling
`setAnimationState` with that name and then `getAnimationState` returns
exactly that name. -/
theorem C2_set_then_get_valid (s : SceneState) :
    getAnimationState (setAnimationState s "idle").1 = "idle" ∧
    getAnimationState (setAnimationState s "listening").1 = "listening" ∧
    getAnimationState (setAnimationState s "speaking").1 = "speaking" :=
  ⟨setAnimationState_stores s "idle", setAnimationState_stores s "listening",
    setAnimationState_stores s "speaking"⟩

/-- Claim C3 (code bug): after an `initScene` whose registry-creation step fails,
`modelLoader` is present but `registry` is absent; `loadAvatarModel` then
passes its only null-check and dereferences the absent registry —
undefined behaviour, not a logged `NotInitializedError`. -/
theorem C3_registry_not_checked :
    (initScene initialState partialInitEnv).1.modelLoader = some () ∧
    (initScene initialState partialInitEnv).1.registry = none ∧
    loadAvatarModel (initScene initialState partialInitEnv).1 partialInitEnv =
      Outcome.crash [Event.logInfo "Loading avatar model..."] :=
  ⟨rfl, rfl, rfl⟩

/-- Claim C4: invalid resize requests (width ≤ 0 or height ≤ 0) are silent
no-ops (state unchanged, no external call, no log), and therefore the
stored canvas dimensions are positive in every reachable state. -/
theorem C4_invalid_resize_noop_and_positive :
    (∀ (s : SceneState) (w h : Int), w ≤ 0 ∨ h ≤ 0 → setCanvasSize s w h = (s, [])) ∧
    (∀ s : SceneState, Reachable s → 0 < s.canvasWidth ∧ 0 < s.canvasHeight) := by
  constructor
  · intro s w h hc
    unfold setCanvasSize
    rw [if_pos hc]
  · intro s hs
    induction hs with
    | init => exact ⟨by decide, by decide⟩
    | stepInitScene s env hs ih =>
        have hc := initScene_canvas s env
        omega
    | stepLoadAvatarModel s env s' tr hs hload ih =>
        have hc := loadAvatarModel_ok_canvas s env s' tr hload
        omega
    | stepSetAnimationState s name hs ih =>
        have hc := setAnimationState_canvas s name
        omega
    | stepUpdateFrame s hs ih => exact ih
    | stepSetCanvasSize s w h hs ih => exact setCanvasSize_pos s w h ih.1 ih.2
    | stepCleanup s hs ih => exact ih

/-- Witness for C4 at the concrete invalid input (0, 10) and the initial
state. -/
theorem C4_witness :
    setCanvasSize initialState 0 10 = (initialState, []) ∧
    (0 < initialState.canvasWidth ∧ 0 < initialState.canvasHeight) :=
  ⟨C4_invalid_resize_noop_and_positive.1 initialState 0 10 (Or.inl (by decide)),
   C4_invalid_resize_noop_and_positive.2 initialState Reachable.init⟩

/-- Claim C5: every valid resize recomputes the camera with the new aspect
ratio while keeping `cameraPosition`, `cameraTarget`, `cameraFOV` and the
near/far planes (0.1, 100.0) exactly as before the call. -/
theorem C5_resize_recomputes_camera (s : SceneState) (w h : Int)
    (hw : 0 < w) (hh : 0 < h) :
    (setCanvasSize s w h).1.cameraPosition = s.cameraPosition ∧
    (setCanvasSize s w h).1.cameraTarget = s.cameraTarget ∧
    (setCanvasSize s w h).1.cameraFOV = s.cameraFOV ∧
    (∀ sc, s.scene = some sc →
      (setCanvasSize s w h).1.scene = some { sc with camera := some {
          position := s.cameraPosition, target := s.cameraTarget,
          up := vec3 0 1 0, fov := s.cameraFOV,
          aspect := (w : ℚ) / (h : ℚ), near := 1/10, far := 100 } }) := by
  have A := setCanvasSize_camera_fields s w h hw hh
  exact ⟨A.1, A.2.1, A.2.2, fun sc hsc => setCanvasSize_scene_some s w h hw hh sc hsc⟩

/-- Witness for C5 at a concrete state with a live scene handle and the
resize (1920, 1080). -/
theorem C5_witness :
    (setCanvasSize { initialState with scene := some SceneHandle.new } 1920 1080).1.scene =
      some { SceneHandle.new with camera := some {
        position := vec3 0 (17/10) (5/2), target := vec3 0 (3/2) 0,
        up := vec3 0 1 0, fov := 50,
        aspect := ((1920 : Int) : ℚ) / ((1080 : Int) : ℚ),
        near := 1/10, far := 100 } } :=
  (C5_resize_recomputes_camera { initialState with scene := some SceneHandle.new }
      1920 1080 (by decide) (by decide)).2.2.2 SceneHandle.new rfl

/-- Claim C6: `updateFrame` never logs an error, and each piece of work is
skipped when its handle is absent: no animator update without an animator,
no scene update without a scene, no render cycle unless both device and
scene exist; before `initScene` it does nothing at all. -/
theorem C6_updateFrame_skips_absent (s : SceneState) :
    (updateFrame s).2.filter Event.isError = [] ∧
    (s.animator = none → (updateFrame s).2.filter Event.isAnimatorUpdate = []) ∧
    (s.scene = none → (updateFrame s).2.filter Event.isSceneUpdate = []) ∧
    (s.graphicsDevice = none ∨ s.scene = none →
      (updateFrame s).2.filter Event.isRenderCall = []) ∧
    updateFrame initialState = (initialState, []) := by
  rcases ha : s.animator with _ | a <;>
    rcases hsc : s.scene with _ | sc <;>
      rcases hd : s.graphicsDevice with _ | d <;>
        simp [updateFrame, initialState, ha, hsc, hd, Event.isError, Event.isAnimatorUpdate,
          Event.isSceneUpdate, Event.isRenderCall]

/-- Witness for C6 at the pre-`initScene` state (all handles absent). -/
theorem C6_witness :
    (updateFrame initialState).2.filter Event.isAnimatorUpdate = [] ∧
    (updateFrame initialState).2.filter Event.isSceneUpdate = [] ∧
    (updateFrame initialState).2.filter Event.isRenderCall = [] :=
  ⟨(C6_updateFrame_skips_absent initialState).2.1 rfl,
   (C6_updateFrame_skips_absent initialState).2.2.1 rfl,
   (C6_updateFrame_skips_absent initialState).2.2.2.1 (Or.inl rfl)⟩

/-- Claim C7: `cleanup` is idempotent — a second call leaves the state
exactly as after the first, releases no resource, and logs no error. -/
theorem C7_cleanup_idempotent (s : SceneState) :
    (cleanup (cleanup s).1).1 = (cleanup s).1 ∧
    (cleanup (cleanup s).1).2 =
      [Event.logInfo "Cleaning up avatar scene...", Event.logInfo "Cleanup complete"] ∧
    (cleanup (cleanup s).1).2.filter Event.isRelease = [] ∧
    (cleanup (cleanup s).1).2.filter Event.isError = [] :=
  ⟨rfl, rfl, rfl, rfl⟩

/-- Claim C8 (code bug): the entry-point `try/catch` does not catch the
null-handle dereference in `loadAvatarModel`: in the reachable partial
state where `modelLoader` is present but `registry` is absent, the call
crashes instead of returning normally with a logged error. -/
theorem C8_uncaught_null_deref :
    loadAvatarModel partialInitState partialInitEnv =
      Outcome.crash [Event.logInfo "Loading avatar model..."] ∧
    (initScene initialState partialInitEnv).1 = partialInitState :=
  ⟨rfl, rfl⟩

/-- Claim C9: a valid `setCanvasSize` before `initScene` stores the
dimensions, and a subsequent fully successful `initScene` sets the camera
with the stored aspect ratio width/height (not the 1024×768 default). -/
theorem C9_resize_before_init_used (w h : Int) (hw : 0 < w) (hh : 0 < h)
    (env : Env) (henv : env.initSucceeds = true) :
    (setCanvasSize initialState w h).1.canvasWidth = w ∧
    (setCanvasSize initialState w h).1.canvasHeight = h ∧
    (initScene (setCanvasSize initialState w h).1 env).1.scene = some
      { ambientColor := vec3 (1/2) (1/2) (1/2), ambientIntensity := 1/2,
        camera := some {
          position := vec3 0 (17/10) (5/2), target := vec3 0 (3/2) 0,
          up := vec3 0 1 0, fov := 50,
          aspect := (w : ℚ) / (h : ℚ), near := 1/10, far := 100 },
        entities := [] } := by
  have hset := setCanvasSize_no_handles initialState w h hw hh rfl rfl
  refine ⟨by rw [hset], by rw [hset], ?_⟩
  rw [hset]
  have hs := initScene_success_scene
    { initialState with canvasWidth := w, canvasHeight := h } env henv
  exact hs

/-- Witness for C9 at the concrete resize (1920, 1080) and an environment
where every `initScene` step succeeds. -/
theorem C9_witness :
    (setCanvasSize initialState 1920 1080).1.canvasWidth = 1920 ∧
    (setCanvasSize initialState 1920 1080).1.canvasHeight = 1080 ∧
    (initScene (setCanvasSize initialState 1920 1080).1 okEnv).1.scene = some
      { ambientColor := vec3 (1/2) (1/2) (1/2), ambientIntensity := 1/2,
        camera := some {
          position := vec3 0 (17/10) (5/2), target := vec3 0 (3/2) 0,
          up := vec3 0 1 0, fov := 50,
          aspect := ((1920 : Int) : ℚ) / ((1080 : Int) : ℚ),
          near := 1/10, far := 100 },
        entities := [] } :=
  C9_resize_before_init_used 1920 1080 (by decide) (by decide) okEnv (by decide)

/-- Claim C10: `cleanup` resets exactly the five handles; animation state,
avatar entity, camera fields and canvas dimensions survive, so
`getAnimationState` after `cleanup` still returns the last stored
state. -/
theorem C10_cleanup_keeps_other_fields (s : SceneState) :
    (cleanup s).1 = { s with registry := none, animator := none, modelLoader := none, scene := none, graphicsDevice := none } ∧
    getAnimationState (cleanup s).1 = getAnimationState s ∧
    (cleanup s).1.avatarEntity = s.avatarEntity ∧
    (cleanup s).1.cameraPosition = s.cameraPosition ∧
    (cleanup s).1.cameraTarget = s.cameraTarget ∧
    (cleanup s).1.cameraFOV = s.cameraFOV ∧
    (cleanup s).1.canvasWidth = s.canvasWidth ∧
    (cleanup s).1.canvasHeight = s.canvasHeight :=
  ⟨rfl, rfl, rfl, rfl, rfl, rfl, rfl, rfl⟩

end AvatarScene
